import Mathlib

deriving instance DecidableEq for Except

/-!
Verification of the reconciliation engine and local store of
charlie0129/wakatime-sync-go (internal/sync/syncer.go, internal/database).

The Go code is shallowly embedded: the SQLite tables become lists of rows
inside a `DB` state record, every store operation from `database.go` becomes
a function on that state, and the sync orchestration from `syncer.go` becomes
functions threading the state.  Upstream (WakaTime client) responses are
inputs (`Remote`), with `Except Unit` modelling a failed fetch.  Store-level
failures (transaction / constraint errors) are modelled by an explicit fault
model (`StoreFaults`): a plain `Exec` either fails (leaving the state
unchanged) or applies its update; a batched insert running inside a single
transaction either fails at some row index — in which case the transaction
is rolled back and the state at `Begin` is restored — or commits all rows.
Numeric columns (REAL in the schema) are modelled as `Int`: none of the
verified properties depend on float rounding, only on equality comparisons
and sums.  Days are `Int` day indices (the Go code compares days by equality
of their formatted date strings).
-/

namespace WakaSync

/-- A row of the `durations` table (database.Duration). -/
structure Duration where
  day : Int
  project : String
  startTime : Int
  duration : Int
  dependencies : String
deriving Repr, DecidableEq

/-- A row of the `project_durations` table (database.ProjectDuration). -/
structure ProjectDuration where
  day : Int
  project : String
  entity : String
  language : String
  branch : String
  type : String
  startTime : Int
  duration : Int
  dependencies : String
deriving Repr, DecidableEq

/-- A row of the `heartbeats` table (database.HeartBeat). -/
structure HeartBeat where
  day : Int
  entity : String
  type : String
  category : String
  time : Int
  project : String
  branch : String
  language : String
  isWrite : Bool
  machineID : String
  lines : Int
  lineNo : Int
  cursorPos : Int
deriving Repr, DecidableEq

/-- A row of the `day_summaries` table (database.DaySummary); UNIQUE(day). -/
structure DaySummary where
  day : Int
  totalSeconds : Int
deriving Repr, DecidableEq

/-- A row of the `day_stats` table (database.DayStats); UNIQUE(day,type,name). -/
structure DayStat where
  day : Int
  type : String
  name : String
  totalSeconds : Int
deriving Repr, DecidableEq

/-- A row of the `sync_log` audit table; UNIQUE(day). -/
structure SyncLogEntry where
  day : Int
  totalSeconds : Int
  status : String
deriving Repr, DecidableEq

/-- The local store: one list of rows per table (insertion order = rowid order). -/
structure DB where
  durations : List Duration
  projectDurations : List ProjectDuration
  heartbeats : List HeartBeat
  daySummaries : List DaySummary
  dayStats : List DayStat
  syncLog : List SyncLogEntry
deriving Repr, DecidableEq

/-- The empty store. -/
def DB.empty : DB := ⟨[], [], [], [], [], []⟩

/-- Fault model for the store: which operation of `database.go` fails.
A `Bool` field makes the corresponding single `Exec`/`QueryRow` fail;
an `Option Nat` field makes the row-wise `stmt.Exec` inside the batched
insert transaction fail at that row index (the transaction then rolls
back). -/
structure StoreFaults where
  getDaySummary : Bool
  upsertDaySummary : Bool
  deleteDayStats : Bool
  insertDayStatsFailAt : Option Nat
  countDurations : Bool
  deleteDurations : Bool
  insertDurationsFailAt : Option Nat
  deleteProjectDurations : Bool
  insertProjectDurationsFailAt : Option Nat
  countHeartbeats : Bool
  deleteHeartbeats : Bool
  insertHeartbeatsFailAt : Option Nat
  recordSync : Bool
deriving Repr, DecidableEq

/-- The fault-free store (every operation succeeds). -/
def noFaults : StoreFaults :=
  ⟨false, false, false, none, false, false, none, false, none, false, false, none, false⟩

-- Pure table updates (the effect of each SQL statement when it succeeds).

/-- Effect of `DELETE FROM durations WHERE day = ?`. -/
def DB.delDurations (db : DB) (day : Int) : DB :=
  { db with durations := db.durations.filter (fun d => !(d.day == day)) }

/-- Effect of committing the batched `INSERT INTO durations` transaction. -/
def DB.addDurations (db : DB) (rows : List Duration) : DB :=
  { db with durations := db.durations ++ rows }

/-- Effect of `DELETE FROM project_durations WHERE day = ?`. -/
def DB.delProjectDurations (db : DB) (day : Int) : DB :=
  { db with projectDurations := db.projectDurations.filter (fun d => !(d.day == day)) }

/-- Effect of committing the batched `INSERT INTO project_durations` transaction. -/
def DB.addProjectDurations (db : DB) (rows : List ProjectDuration) : DB :=
  { db with projectDurations := db.projectDurations ++ rows }

/-- Effect of `DELETE FROM heartbeats WHERE day = ?`. -/
def DB.delHeartbeats (db : DB) (day : Int) : DB :=
  { db with heartbeats := db.heartbeats.filter (fun h => !(h.day == day)) }

/-- Effect of committing the batched `INSERT INTO heartbeats` transaction. -/
def DB.addHeartbeats (db : DB) (rows : List HeartBeat) : DB :=
  { db with heartbeats := db.heartbeats ++ rows }

/-- Effect of `DELETE FROM day_stats WHERE day = ?`. -/
def DB.delDayStats (db : DB) (day : Int) : DB :=
  { db with dayStats := db.dayStats.filter (fun s => !(s.day == day)) }

/-- One row of the day-stats insert: `INSERT ... ON CONFLICT(day,type,name)
DO UPDATE SET total_seconds = excluded.total_seconds`. -/
def upsertStatRow (stats : List DayStat) (r : DayStat) : List DayStat :=
  if stats.any (fun s => s.day == r.day && s.type == r.type && s.name == r.name) then
    stats.map (fun s =>
      if s.day == r.day && s.type == r.type && s.name == r.name then r else s)
  else stats ++ [r]

/-- Effect of committing the batched day-stats insert transaction. -/
def DB.addDayStats (db : DB) (rows : List DayStat) : DB :=
  { db with dayStats := rows.foldl upsertStatRow db.dayStats }

/-- Effect of `INSERT INTO day_summaries ... ON CONFLICT(day) DO UPDATE`. -/
def DB.putDaySummary (db : DB) (day : Int) (total : Int) : DB :=
  if db.daySummaries.any (fun s => s.day == day) then
    { db with daySummaries :=
        db.daySummaries.map (fun s => if s.day == day then ⟨day, total⟩ else s) }
  else { db with daySummaries := db.daySummaries ++ [⟨day, total⟩] }

/-- Effect of `INSERT INTO sync_log ... ON CONFLICT(day) DO UPDATE`. -/
def DB.putSyncLog (db : DB) (day : Int) (total : Int) (status : String) : DB :=
  if db.syncLog.any (fun e => e.day == day) then
    { db with syncLog :=
        db.syncLog.map (fun e => if e.day == day then ⟨day, total, status⟩ else e) }
  else { db with syncLog := db.syncLog ++ [⟨day, total, status⟩] }

-- Fallible store operations (database.go), under the fault model.

/-- db.DeleteDurationsByDay: a single `Exec`, outside any transaction. -/
def DB.deleteDurationsByDay (f : StoreFaults) (db : DB) (day : Int) : Except Unit DB :=
  if f.deleteDurations then .error () else .ok (db.delDurations day)

/-- db.InsertDurations: all rows inserted inside one transaction; a row-level
failure rolls the whole transaction back (state unchanged). -/
def DB.insertDurations (f : StoreFaults) (db : DB) (rows : List Duration) :
    Except Unit DB :=
  match f.insertDurationsFailAt with
  | some i => if i < rows.length then .error () else .ok (db.addDurations rows)
  | none => .ok (db.addDurations rows)

/-- db.CountDurationsByDay: `SELECT COUNT(*) FROM durations WHERE day = ?`. -/
def DB.countDurationsByDay (f : StoreFaults) (db : DB) (day : Int) :
    Except Unit Nat :=
  if f.countDurations then .error ()
  else .ok (db.durations.filter (fun d => d.day == day)).length

/-- db.DeleteProjectDurationsByDay. -/
def DB.deleteProjectDurationsByDay (f : StoreFaults) (db : DB) (day : Int) :
    Except Unit DB :=
  if f.deleteProjectDurations then .error () else .ok (db.delProjectDurations day)

/-- db.InsertProjectDurations: one transaction, all-or-nothing. -/
def DB.insertProjectDurations (f : StoreFaults) (db : DB)
    (rows : List ProjectDuration) : Except Unit DB :=
  match f.insertProjectDurationsFailAt with
  | some i => if i < rows.length then .error () else .ok (db.addProjectDurations rows)
  | none => .ok (db.addProjectDurations rows)

/-- db.DeleteHeartbeatsByDay. -/
def DB.deleteHeartbeatsByDay (f : StoreFaults) (db : DB) (day : Int) :
    Except Unit DB :=
  if f.deleteHeartbeats then .error () else .ok (db.delHeartbeats day)

/-- db.InsertHeartbeats: one transaction, all-or-nothing. -/
def DB.insertHeartbeats (f : StoreFaults) (db : DB) (rows : List HeartBeat) :
    Except Unit DB :=
  match f.insertHeartbeatsFailAt with
  | some i => if i < rows.length then .error () else .ok (db.addHeartbeats rows)
  | none => .ok (db.addHeartbeats rows)

/-- db.CountHeartbeatsByDay. -/
def DB.countHeartbeatsByDay (f : StoreFaults) (db : DB) (day : Int) :
    Except Unit Nat :=
  if f.countHeartbeats then .error ()
  else .ok (db.heartbeats.filter (fun h => h.day == day)).length

/-- db.GetDaySummary: returns the day's row or `none` (sql.ErrNoRows). -/
def DB.getDaySummary (f : StoreFaults) (db : DB) (day : Int) :
    Except Unit (Option DaySummary) :=
  if f.getDaySummary then .error ()
  else .ok (db.daySummaries.find? (fun s => s.day == day))

/-- db.UpsertDaySummary. -/
def DB.upsertDaySummary (f : StoreFaults) (db : DB) (day : Int) (total : Int) :
    Except Unit DB :=
  if f.upsertDaySummary then .error () else .ok (db.putDaySummary day total)

/-- db.DeleteDayStatsByDay. -/
def DB.deleteDayStatsByDay (f : StoreFaults) (db : DB) (day : Int) :
    Except Unit DB :=
  if f.deleteDayStats then .error () else .ok (db.delDayStats day)

/-- db.InsertDayStats: one transaction, per-row upsert-on-conflict,
all-or-nothing. -/
def DB.insertDayStats (f : StoreFaults) (db : DB) (rows : List DayStat) :
    Except Unit DB :=
  match f.insertDayStatsFailAt with
  | some i => if i < rows.length then .error () else .ok (db.addDayStats rows)
  | none => .ok (db.addDayStats rows)

/-- db.RecordSync: upsert into the audit log, keyed by day. -/
def DB.recordSync (f : StoreFaults) (db : DB) (day : Int) (total : Int)
    (status : String) : Except Unit DB :=
  if f.recordSync then .error () else .ok (db.putSyncLog day total status)

/-- db.IsDaySynced: `COUNT(*) > 0` of success entries for the day. -/
def DB.isDaySynced (db : DB) (day : Int) : Bool :=
  db.syncLog.any (fun e => e.day == day && e.status == "success")

/-- First sync-log entry for a day (the UNIQUE(day) row readers see). -/
def DB.syncLogFor (db : DB) (day : Int) : Option SyncLogEntry :=
  db.syncLog.find? (fun e => e.day == day)

-- Upstream (WakaTime client) data, as inputs to the engine.

/-- One name/total breakdown item of a remote day summary
(wakatime.SummaryItem / wakatime.MachineItem). -/
structure SummaryItem where
  name : String
  totalSeconds : Int
deriving Repr, DecidableEq

/-- One remote day summary (wakatime.SummaryDay). -/
structure SummaryDay where
  grandTotalSeconds : Int
  categories : List SummaryItem
  languages : List SummaryItem
  editors : List SummaryItem
  operatingSystems : List SummaryItem
  projects : List SummaryItem
  dependencies : List SummaryItem
  machines : List SummaryItem
deriving Repr, DecidableEq

/-- One remote duration item (wakatime.DurationData, day-scoped fetch). -/
structure RemoteDuration where
  project : String
  time : Int
  duration : Int
  dependencies : String
deriving Repr, DecidableEq

/-- One remote project-scoped duration item (wakatime.DurationData from
GetDurationsWithProject). -/
structure RemoteProjectDuration where
  entity : String
  language : String
  branch : String
  type : String
  time : Int
  duration : Int
  dependencies : String
deriving Repr, DecidableEq

/-- One remote heartbeat item (wakatime.HeartbeatData). -/
structure RemoteHeartbeat where
  entity : String
  type : String
  category : String
  time : Int
  project : String
  branch : String
  language : String
  isWrite : Bool
  machineNameID : String
  lines : Int
  lineNo : Int
  cursorPos : Int
deriving Repr, DecidableEq

/-- The upstream client's responses for one day.  `Except.error ()` models a
transport failure or non-success status; `Except.ok` carries the `Data`
list of the response. -/
structure Remote where
  summaries : Except Unit (List SummaryDay)
  durations : Except Unit (List RemoteDuration)
  heartbeats : Except Unit (List RemoteHeartbeat)
  projectDurations : String → Except Unit (List RemoteProjectDuration)

-- The reconciliation engine (syncer.go).

/-- The day-stats rows built from a remote summary in `syncSummary`:
categories, then languages, editors, operating systems, projects,
dependencies, machines (append order of the Go code). -/
def buildStats (day : Int) (s : SummaryDay) : List DayStat :=
  s.categories.map (fun i => ⟨day, "category", i.name, i.totalSeconds⟩)
  ++ s.languages.map (fun i => ⟨day, "language", i.name, i.totalSeconds⟩)
  ++ s.editors.map (fun i => ⟨day, "editor", i.name, i.totalSeconds⟩)
  ++ s.operatingSystems.map (fun i => ⟨day, "os", i.name, i.totalSeconds⟩)
  ++ s.projects.map (fun i => ⟨day, "project", i.name, i.totalSeconds⟩)
  ++ s.dependencies.map (fun i => ⟨day, "dependency", i.name, i.totalSeconds⟩)
  ++ s.machines.map (fun i => ⟨day, "machine", i.name, i.totalSeconds⟩)

/-- The write path of `syncSummary` (remote total differs from the stored
one): upsert the day summary, delete the day's stats, insert the rebuilt
stats if non-empty. -/
def syncSummaryWrite (f : StoreFaults) (db : DB) (day : Int) (s : SummaryDay) :
    Except Unit Int × DB :=
  match db.upsertDaySummary f day s.grandTotalSeconds with
  | .error e => (.error e, db)
  | .ok db1 =>
    match db1.deleteDayStatsByDay f day with
    | .error e => (.error e, db1)
    | .ok db2 =>
      let stats := buildStats day s
      if stats.length > 0 then
        match db2.insertDayStats f stats with
        | .error e => (.error e, db2)
        | .ok db3 => (.ok s.grandTotalSeconds, db3)
      else (.ok s.grandTotalSeconds, db2)

/-- Syncer.syncSummary: fetch the remote summary; empty data is a no-op
returning 0; an unchanged stored grand total skips the rewrite; otherwise
rewrite summary and day stats.  Returns the grand total and the store
state (also on error: the state reached at the failure point). -/
def syncSummary (f : StoreFaults) (r : Remote) (db : DB) (day : Int) :
    Except Unit Int × DB :=
  match r.summaries with
  | .error e => (.error e, db)
  | .ok [] => (.ok 0, db)
  | .ok (s :: _) =>
    match db.getDaySummary f day with
    | .error e => (.error e, db)
    | .ok existing =>
      match existing with
      | some ex =>
        if ex.totalSeconds == s.grandTotalSeconds then (.ok s.grandTotalSeconds, db)
        else syncSummaryWrite f db day s
      | none => syncSummaryWrite f db day s

/-- Distinct strings keeping first occurrences. -/
def dedupStrings : List String → List String
  | [] => []
  | x :: xs => x :: (dedupStrings xs).filter (fun y => !(y == x))

/-- The distinct non-empty project names of the day's remote durations
(the key set of the `projects` map built in `syncDurations`), in first
occurrence order. -/
def distinctProjects (data : List RemoteDuration) : List String :=
  dedupStrings ((data.filter (fun d => !(d.project == ""))).map (fun d => d.project))

/-- A possible iteration order of the `projects` Go map in `syncDurations`:
Go map range order is unspecified, so any permutation of the distinct
non-empty project names is a valid order. -/
def validProjectOrder (data : List RemoteDuration) (order : List String) : Prop :=
  order.Perm (distinctProjects data)

/-- The per-project fetch loop of `syncDurations`: for each project in the
map iteration order, fetch its entity-scoped durations; a failed fetch is
logged and skipped; successful rows are appended. -/
def fetchProjectDurations (r : Remote) (day : Int) (order : List String) :
    List ProjectDuration :=
  order.foldl
    (fun acc p =>
      match r.projectDurations p with
      | .error _ => acc
      | .ok ds =>
        acc ++ ds.map (fun d =>
          ⟨day, p, d.entity, d.language, d.branch, d.type, d.time, d.duration,
            d.dependencies⟩))
    []

/-- Syncer.syncDurations.  `order` is the iteration order of the `projects`
map (an input because Go map order is unspecified).  Fetch remote durations;
empty data is a no-op; if the stored count is at least the remote count,
skip; otherwise delete the day's rows (its own statement) and insert the new
rows (one transaction), then run the per-project loop and, if it produced
rows, delete and re-insert the day's project durations. -/
def syncDurations (f : StoreFaults) (r : Remote) (order : List String) (db : DB)
    (day : Int) : Except Unit Unit × DB :=
  match r.durations with
  | .error e => (.error e, db)
  | .ok data =>
    if data.length == 0 then (.ok (), db)
    else
      match db.countDurationsByDay f day with
      | .error e => (.error e, db)
      | .ok existingCount =>
        if existingCount ≥ data.length then (.ok (), db)
        else
          match db.deleteDurationsByDay f day with
          | .error e => (.error e, db)
          | .ok db1 =>
            let rows := data.map (fun d =>
              Duration.mk day d.project d.time d.duration d.dependencies)
            match db1.insertDurations f rows with
            | .error e => (.error e, db1)
            | .ok db2 =>
              let projRows := fetchProjectDurations r day order
              if projRows.length > 0 then
                match db2.deleteProjectDurationsByDay f day with
                | .error e => (.error e, db2)
                | .ok db3 =>
                  match db3.insertProjectDurations f projRows with
                  | .error e => (.error e, db3)
                  | .ok db4 => (.ok (), db4)
              else (.ok (), db2)

/-- Syncer.syncHeartbeats: fetch remote heartbeats; empty data is a no-op;
if the stored count is at least the remote count, skip; otherwise delete
the day's rows and insert the new rows (one transaction). -/
def syncHeartbeats (f : StoreFaults) (r : Remote) (db : DB) (day : Int) :
    Except Unit Unit × DB :=
  match r.heartbeats with
  | .error e => (.error e, db)
  | .ok data =>
    if data.length == 0 then (.ok (), db)
    else
      match db.countHeartbeatsByDay f day with
      | .error e => (.error e, db)
      | .ok existingCount =>
        if existingCount ≥ data.length then (.ok (), db)
        else
          match db.deleteHeartbeatsByDay f day with
          | .error e => (.error e, db)
          | .ok db1 =>
            let rows := data.map (fun h =>
              HeartBeat.mk day h.entity h.type h.category h.time h.project
                h.branch h.language h.isWrite h.machineNameID h.lines h.lineNo
                h.cursorPos)
            match db1.insertHeartbeats f rows with
            | .error e => (.error e, db1)
            | .ok db2 => (.ok (), db2)

/-- The Go code ignores RecordSync's returned error inside SyncDay: on
failure the store is simply left as it was. -/
def recordSyncIgnore (f : StoreFaults) (db : DB) (day : Int) (total : Int)
    (status : String) : DB :=
  match db.recordSync f day total status with
  | .error _ => db
  | .ok db1 => db1

/-- Syncer.SyncDay: summary first (fatal on failure, recording a "failed"
audit entry with total 0); then durations and heartbeats, whose errors are
logged and swallowed; finally a "success" audit entry with the summary's
total. -/
def SyncDay (f : StoreFaults) (r : Remote) (order : List String) (db : DB)
    (day : Int) : Except Unit Unit × DB :=
  match syncSummary f r db day with
  | (.error e, db1) => (.error e, recordSyncIgnore f db1 day 0 "failed")
  | (.ok total, db1) =>
    let db2 := (syncDurations f r order db1 day).2
    let db3 := (syncHeartbeats f r db2 day).2
    (.ok (), recordSyncIgnore f db3 day total "success")

/-- Syncer.SyncDateRange: sync every day of [start, end] in order; a day's
failure is logged and skipped; always returns nil.  `rs`/`orders` give each
day's upstream responses and map iteration order. -/
def SyncDateRange (f : StoreFaults) (rs : Int → Remote) (orders : Int → List String)
    (db : DB) (start endDay : Int) : Except Unit Unit × DB :=
  let days := (List.range (endDay - start + 1).toNat).map (fun i => start + i)
  (.ok (), days.foldl (fun acc d => (SyncDay f (rs d) (orders d) acc d).2) db)

/-- Syncer.SyncDays: sync the last `n` days ending yesterday (`today` is the
current day index); per-day failures are logged and skipped; always returns
nil. -/
def SyncDays (f : StoreFaults) (rs : Int → Remote) (orders : Int → List String)
    (db : DB) (today : Int) (n : Int) : Except Unit Unit × DB :=
  let days := (List.range ((today - 1) - (today - n) + 1).toNat).map
    (fun i => today - n + i)
  (.ok (), days.foldl (fun acc d => (SyncDay f (rs d) (orders d) acc d).2) db)

-- Read-side aggregation (database.go, GetAggregatedStats).

/-- The day-stat rows a range/type aggregation query ranges over:
`WHERE day >= start AND day <= end AND type = ?`. -/
def aggRows (db : DB) (start endDay : Int) (ty : String) : List DayStat :=
  db.dayStats.filter (fun s =>
    decide (start ≤ s.day) && decide (s.day ≤ endDay) && s.type == ty)

/-- `SUM(total_seconds)` of the rows carrying one name. -/
def sumFor (rows : List DayStat) (n : String) : Int :=
  (rows.filter (fun s => s.name == n)).foldl (fun acc s => acc + s.totalSeconds) 0

/-- Insert into a list sorted by descending second component. -/
def insertDescBySnd (p : String × Int) : List (String × Int) → List (String × Int)
  | [] => [p]
  | q :: rest => if q.2 ≤ p.2 then p :: q :: rest else q :: insertDescBySnd p rest

/-- Insertion sort by descending second component (`ORDER BY total DESC`). -/
def sortDescBySnd : List (String × Int) → List (String × Int)
  | [] => []
  | p :: rest => insertDescBySnd p (sortDescBySnd rest)

/-- db.GetAggregatedStats: group the range's rows of one type by name,
sum each group's total_seconds, and order descending by the sum. -/
def DB.getAggregatedStats (db : DB) (start endDay : Int) (ty : String) :
    List (String × Int) :=
  let rows := aggRows db start endDay ty
  sortDescBySnd ((dedupStrings (rows.map (fun s => s.name))).map
    (fun n => (n, sumFor rows n)))

-- ### Concrete instances used by counterexamples and witnesses

/-- A remote day summary with grand total 5000 and no breakdowns. -/
def sumFive : SummaryDay := ⟨5000, [], [], [], [], [], [], []⟩

/-- A remote day summary with grand total 7200 and one language entry. -/
def sumGo : SummaryDay := ⟨7200, [], [⟨"Go", 7200⟩], [], [], [], [], []⟩

/-- Upstream responses: summary total 5000, empty durations, failing
heartbeat fetch (the spec's partial-failure scenario). -/
def rPartial : Remote := ⟨.ok [sumFive], .ok [], .error (), fun _ => .error ()⟩

/-- Upstream responses where every fetch fails. -/
def rAllFail : Remote := ⟨.error (), .error (), .error (), fun _ => .error ()⟩

/-- Fault: the batched duration insert fails at its first row. -/
def fInsFail : StoreFaults :=
  ⟨false, false, false, none, false, false, some 0, false, none, false, false, none, false⟩

/-- A store holding one duration row for day 0. -/
def dbOneDur : DB := ⟨[⟨0, "p", 1, 2, ""⟩], [], [], [], [], []⟩

/-- Upstream responses: two remote durations for the day. -/
def rTwoDur : Remote :=
  ⟨.error (), .ok [⟨"p", 1, 2, ""⟩, ⟨"q", 3, 2, ""⟩], .error (), fun _ => .error ()⟩

/-- Fault: the duration count query fails (a store failure inside the
durations step). -/
def fCountFail : StoreFaults :=
  ⟨false, false, false, none, true, false, none, false, none, false, false, none, false⟩

/-- Upstream responses: good summary, one duration, no heartbeats. -/
def rGood : Remote :=
  ⟨.ok [sumGo], .ok [⟨"p", 1, 2, ""⟩], .ok [], fun _ => .error ()⟩

/-- Two remote durations naming distinct projects "a" and "b". -/
def dataTwoProj : List RemoteDuration := [⟨"a", 1, 1, ""⟩, ⟨"b", 2, 1, ""⟩]

/-- Upstream responses for the project-order scenario: each project fetch
returns one entity row named after the project. -/
def rTwoProj : Remote :=
  ⟨.error (), .ok dataTwoProj, .error (),
    fun p => .ok [⟨p, "Go", "main", "file", 1, 1, ""⟩]⟩

/-- A store with language stats A:100 (day 1) and B:300 (day 2). -/
def aggExample : DB :=
  ⟨[], [], [], [], [⟨1, "language", "A", 100⟩, ⟨2, "language", "B", 300⟩], []⟩

/-- Upstream responses: the summary fetch succeeds with an empty data list. -/
def rEmptySummary : Remote := ⟨.ok [], .ok [], .ok [], fun _ => .error ()⟩

/-- A store holding one heartbeat row for day 0. -/
def dbOneEach : DB :=
  ⟨[⟨0, "p", 1, 2, ""⟩], [], [⟨0, "e", "file", "coding", 1, "p", "b", "Go",
    false, "m", 0, 0, 0⟩], [], [], []⟩

/-- Upstream responses: one remote duration and one remote heartbeat. -/
def rOneEach : Remote :=
  ⟨.error (), .ok [⟨"p", 1, 2, ""⟩],
    .ok [⟨"e", "file", "coding", 1, "p", "b", "Go", false, "m", 0, 0, 0⟩],
    fun _ => .error ()⟩

/-- A store already holding day 0's summary with total 7200. -/
def dbSumGo : DB := ⟨[], [], [], [⟨0, 7200⟩], [], []⟩

-- ### List helper lemmas

theorem filter_not_filter {α : Type} (p : α → Bool) (l : List α) :
    (l.filter (fun a => !(p a))).filter p = [] := by
  induction l with
  | nil => rfl
  | cons a l ih => cases ha : p a <;> simp [ha, ih]

theorem find_upsert_log (l : List SyncLogEntry) (day t : Int) (st : String) :
    List.find? (fun e => e.day == day)
      (if l.any (fun e => e.day == day)
       then l.map (fun e => if e.day == day then ⟨day, t, st⟩ else e)
       else l ++ [⟨day, t, st⟩]) = some ⟨day, t, st⟩ := by
  induction l with
  | nil => simp [List.find?]
  | cons e l ih =>
    cases he : e.day == day with
    | true =>
      rw [show ((e :: l).any fun x : SyncLogEntry => x.day == day) = true from by
            simp [List.any_cons, he],
          if_pos rfl, List.map_cons, if_pos he]
      exact List.find?_cons_of_pos (p := fun x : SyncLogEntry => x.day == day) _ (by simp)
    | false =>
      have hne : ¬((e.day == day) = true) := by simp [he]
      have hany : ((e :: l).any fun x : SyncLogEntry => x.day == day)
          = (l.any fun x : SyncLogEntry => x.day == day) := by simp [List.any_cons, he]
      cases hal : l.any (fun x : SyncLogEntry => x.day == day) with
      | true =>
        rw [hal, if_pos rfl] at ih
        rw [hany, hal, if_pos rfl, List.map_cons, if_neg hne]
        exact (List.find?_cons_of_neg (p := fun x : SyncLogEntry => x.day == day) _ hne).trans ih
      | false =>
        rw [hal, if_neg (by simp)] at ih
        rw [hany, hal, if_neg (by simp), List.cons_append]
        exact (List.find?_cons_of_neg (p := fun x : SyncLogEntry => x.day == day) _ hne).trans ih

theorem find_upsert_summary (l : List DaySummary) (day t : Int) :
    List.find? (fun s => s.day == day)
      (if l.any (fun s => s.day == day)
       then l.map (fun s => if s.day == day then ⟨day, t⟩ else s)
       else l ++ [⟨day, t⟩]) = some ⟨day, t⟩ := by
  induction l with
  | nil => simp [List.find?]
  | cons e l ih =>
    cases he : e.day == day with
    | true =>
      rw [show ((e :: l).any fun x : DaySummary => x.day == day) = true from by
            simp [List.any_cons, he],
          if_pos rfl, List.map_cons, if_pos he]
      exact List.find?_cons_of_pos (p := fun x : DaySummary => x.day == day) _ (by simp)
    | false =>
      have hne : ¬((e.day == day) = true) := by simp [he]
      have hany : ((e :: l).any fun x : DaySummary => x.day == day)
          = (l.any fun x : DaySummary => x.day == day) := by simp [List.any_cons, he]
      cases hal : l.any (fun x : DaySummary => x.day == day) with
      | true =>
        rw [hal, if_pos rfl] at ih
        rw [hany, hal, if_pos rfl, List.map_cons, if_neg hne]
        exact (List.find?_cons_of_neg (p := fun x : DaySummary => x.day == day) _ hne).trans ih
      | false =>
        rw [hal, if_neg (by simp)] at ih
        rw [hany, hal, if_neg (by simp), List.cons_append]
        exact (List.find?_cons_of_neg (p := fun x : DaySummary => x.day == day) _ hne).trans ih

theorem putSyncLog_find (db : DB) (day t : Int) (st : String) :
    (db.putSyncLog day t st).syncLogFor day = some ⟨day, t, st⟩ := by
  unfold DB.putSyncLog DB.syncLogFor
  have h := find_upsert_log db.syncLog day t st
  split at h <;> split <;> simp_all

theorem putDaySummary_find (db : DB) (day t : Int) :
    (db.putDaySummary day t).daySummaries.find? (fun s => s.day == day)
      = some ⟨day, t⟩ := by
  unfold DB.putDaySummary
  have h := find_upsert_summary db.daySummaries day t
  split at h <;> split <;> simp_all

theorem filter_day_mapped_durations (data : List RemoteDuration) (day : Int) :
    (data.map (fun d =>
        Duration.mk day d.project d.time d.duration d.dependencies)).filter
      (fun x => x.day == day)
      = data.map (fun d => Duration.mk day d.project d.time d.duration d.dependencies) := by
  rw [List.filter_eq_self]
  intro x hx
  simp only [List.mem_map] at hx
  obtain ⟨d, _, rfl⟩ := hx
  simp

theorem filter_day_mapped_heartbeats (data : List RemoteHeartbeat) (day : Int) :
    (data.map (fun h =>
        HeartBeat.mk day h.entity h.type h.category h.time h.project h.branch
          h.language h.isWrite h.machineNameID h.lines h.lineNo h.cursorPos)).filter
      (fun x => x.day == day)
      = data.map (fun h =>
          HeartBeat.mk day h.entity h.type h.category h.time h.project h.branch
            h.language h.isWrite h.machineNameID h.lines h.lineNo h.cursorPos) := by
  rw [List.filter_eq_self]
  intro x hx
  simp only [List.mem_map] at hx
  obtain ⟨d, _, rfl⟩ := hx
  simp

-- ### Step-level reduction lemmas

theorem syncSummary_err {r : Remote} (f : StoreFaults) (db : DB) (day : Int)
    (e : Unit) (h : r.summaries = .error e) :
    syncSummary f r db day = (.error e, db) := by
  unfold syncSummary
  rw [h]

theorem syncSummary_emptyData {r : Remote} (f : StoreFaults) (db : DB) (day : Int)
    (h : r.summaries = .ok []) : syncSummary f r db day = (.ok 0, db) := by
  unfold syncSummary
  rw [h]

theorem syncSummary_skip {r : Remote} (db : DB) (day : Int) (s : SummaryDay)
    (rest : List SummaryDay) (ex : DaySummary)
    (h : r.summaries = .ok (s :: rest))
    (hex : db.daySummaries.find? (fun x => x.day == day) = some ex)
    (ht : ex.totalSeconds = s.grandTotalSeconds) :
    syncSummary noFaults r db day = (.ok s.grandTotalSeconds, db) := by
  unfold syncSummary DB.getDaySummary
  rw [h]
  simp [noFaults, hex, ht]

theorem syncDurations_err {r : Remote} (f : StoreFaults) (o : List String)
    (db : DB) (day : Int) (e : Unit) (h : r.durations = .error e) :
    syncDurations f r o db day = (.error e, db) := by
  unfold syncDurations
  rw [h]

theorem syncDurations_skip {r : Remote} (o : List String) (db : DB) (day : Int)
    (data : List RemoteDuration) (h : r.durations = .ok data)
    (hc : data.length ≤ (db.durations.filter (fun d => d.day == day)).length) :
    syncDurations noFaults r o db day = (.ok (), db) := by
  unfold syncDurations
  rw [h]
  by_cases h0 : (data.length == 0) = true
  · simp [h0]
  · simp only [h0, Bool.false_eq_true, if_neg, not_false_iff]
    simp only [DB.countDurationsByDay, noFaults, Bool.false_eq_true, if_neg,
      not_false_iff, ge_iff_le]
    rw [if_pos hc]

theorem syncHeartbeats_err {r : Remote} (f : StoreFaults) (db : DB) (day : Int)
    (e : Unit) (h : r.heartbeats = .error e) :
    syncHeartbeats f r db day = (.error e, db) := by
  unfold syncHeartbeats
  rw [h]

theorem syncHeartbeats_skip {r : Remote} (db : DB) (day : Int)
    (data : List RemoteHeartbeat) (h : r.heartbeats = .ok data)
    (hc : data.length ≤ (db.heartbeats.filter (fun x => x.day == day)).length) :
    syncHeartbeats noFaults r db day = (.ok (), db) := by
  unfold syncHeartbeats
  rw [h]
  by_cases h0 : (data.length == 0) = true
  · simp [h0]
  · simp only [h0, Bool.false_eq_true, if_neg, not_false_iff]
    simp only [DB.countHeartbeatsByDay, noFaults, Bool.false_eq_true, if_neg,
      not_false_iff, ge_iff_le]
    rw [if_pos hc]

-- ### Frame lemmas: each step touches only its own tables.

theorem syncSummary_frame (f : StoreFaults) (r : Remote) (db : DB) (day : Int) :
    ((syncSummary f r db day).2).durations = db.durations ∧
    ((syncSummary f r db day).2).projectDurations = db.projectDurations ∧
    ((syncSummary f r db day).2).heartbeats = db.heartbeats ∧
    ((syncSummary f r db day).2).syncLog = db.syncLog := by
  unfold syncSummary syncSummaryWrite DB.getDaySummary DB.upsertDaySummary
    DB.deleteDayStatsByDay DB.insertDayStats
  repeat' (first | split | split_ifs at *)
  all_goals simp_all [DB.putDaySummary, DB.delDayStats, DB.addDayStats]
  all_goals (repeat' (first | split | split_ifs at *))
  all_goals subst_vars
  all_goals (try simp_all)
  all_goals subst_vars
  all_goals simp_all

theorem syncDurations_frame (f : StoreFaults) (r : Remote) (o : List String)
    (db : DB) (day : Int) :
    ((syncDurations f r o db day).2).daySummaries = db.daySummaries ∧
    ((syncDurations f r o db day).2).dayStats = db.dayStats ∧
    ((syncDurations f r o db day).2).heartbeats = db.heartbeats ∧
    ((syncDurations f r o db day).2).syncLog = db.syncLog := by
  unfold syncDurations DB.countDurationsByDay DB.deleteDurationsByDay
    DB.insertDurations DB.deleteProjectDurationsByDay DB.insertProjectDurations
  repeat' (first | split | split_ifs at *)
  all_goals simp_all [DB.delDurations, DB.addDurations, DB.delProjectDurations,
    DB.addProjectDurations]
  all_goals (repeat' (first | split | split_ifs at *))
  all_goals subst_vars
  all_goals (try simp_all)
  all_goals subst_vars
  all_goals simp_all

theorem syncHeartbeats_frame (f : StoreFaults) (r : Remote) (db : DB) (day : Int) :
    ((syncHeartbeats f r db day).2).durations = db.durations ∧
    ((syncHeartbeats f r db day).2).projectDurations = db.projectDurations ∧
    ((syncHeartbeats f r db day).2).daySummaries = db.daySummaries ∧
    ((syncHeartbeats f r db day).2).dayStats = db.dayStats ∧
    ((syncHeartbeats f r db day).2).syncLog = db.syncLog := by
  unfold syncHeartbeats DB.countHeartbeatsByDay DB.deleteHeartbeatsByDay
    DB.insertHeartbeats
  repeat' (first | split | split_ifs at *)
  all_goals simp_all [DB.delHeartbeats, DB.addHeartbeats]
  all_goals (repeat' (first | split | split_ifs at *))
  all_goals subst_vars
  all_goals (try simp_all)
  all_goals subst_vars
  all_goals simp_all

theorem recordSyncIgnore_frame (f : StoreFaults) (db : DB) (day total : Int)
    (st : String) :
    (recordSyncIgnore f db day total st).durations = db.durations ∧
    (recordSyncIgnore f db day total st).projectDurations = db.projectDurations ∧
    (recordSyncIgnore f db day total st).heartbeats = db.heartbeats ∧
    (recordSyncIgnore f db day total st).daySummaries = db.daySummaries ∧
    (recordSyncIgnore f db day total st).dayStats = db.dayStats := by
  unfold recordSyncIgnore DB.recordSync DB.putSyncLog
  by_cases hf : f.recordSync = true
  · simp [hf]
  · simp only [hf, Bool.false_eq_true, if_neg, not_false_iff]
    split <;> simp

theorem recordSyncIgnore_noRecFault (f : StoreFaults) (db : DB) (day total : Int)
    (st : String) (h : f.recordSync = false) :
    recordSyncIgnore f db day total st = db.putSyncLog day total st := by
  unfold recordSyncIgnore DB.recordSync
  simp [h]

-- ### After a fault-free run, the stored counts cover the remote counts.

theorem syncDurations_count (r : Remote) (o : List String) (db : DB) (day : Int)
    (data : List RemoteDuration) (h : r.durations = .ok data) :
    data.length ≤
      (((syncDurations noFaults r o db day).2).durations.filter
        (fun d => d.day == day)).length := by
  unfold syncDurations
  rw [h]
  by_cases h0 : (data.length == 0) = true
  · have hz : data.length = 0 := by simpa using h0
    simp [hz]
  · simp only [h0, Bool.false_eq_true, if_neg, not_false_iff]
    simp only [DB.countDurationsByDay, noFaults, Bool.false_eq_true, if_neg,
      not_false_iff, ge_iff_le]
    by_cases hge : data.length ≤ (db.durations.filter (fun d => d.day == day)).length
    · rw [if_pos hge]
      exact hge
    · rw [if_neg hge]
      simp only [DB.deleteDurationsByDay, noFaults, Bool.false_eq_true, if_neg,
        not_false_iff, DB.insertDurations]
      split
      · simp only [DB.deleteProjectDurationsByDay, noFaults, Bool.false_eq_true,
          if_neg, not_false_iff, DB.insertProjectDurations]
        simp [DB.delDurations, DB.addDurations, DB.delProjectDurations,
          DB.addProjectDurations, List.filter_append, filter_not_filter,
          filter_day_mapped_durations]
      · simp [DB.delDurations, DB.addDurations, List.filter_append,
          filter_not_filter, filter_day_mapped_durations]

theorem syncHeartbeats_count (r : Remote) (db : DB) (day : Int)
    (data : List RemoteHeartbeat) (h : r.heartbeats = .ok data) :
    data.length ≤
      (((syncHeartbeats noFaults r db day).2).heartbeats.filter
        (fun x => x.day == day)).length := by
  unfold syncHeartbeats
  rw [h]
  by_cases h0 : (data.length == 0) = true
  · have hz : data.length = 0 := by simpa using h0
    simp [hz]
  · simp only [h0, Bool.false_eq_true, if_neg, not_false_iff]
    simp only [DB.countHeartbeatsByDay, noFaults, Bool.false_eq_true, if_neg,
      not_false_iff, ge_iff_le]
    by_cases hge : data.length ≤ (db.heartbeats.filter (fun x => x.day == day)).length
    · rw [if_pos hge]
      exact hge
    · rw [if_neg hge]
      simp only [DB.deleteHeartbeatsByDay, noFaults, Bool.false_eq_true, if_neg,
        not_false_iff, DB.insertHeartbeats]
      simp [DB.delHeartbeats, DB.addHeartbeats, List.filter_append,
        filter_not_filter, filter_day_mapped_heartbeats]

theorem syncSummaryWrite_char (db : DB) (day : Int) (s : SummaryDay) :
    (syncSummaryWrite noFaults db day s).1 = .ok s.grandTotalSeconds ∧
    ((syncSummaryWrite noFaults db day s).2).daySummaries.find?
      (fun x => x.day == day) = some ⟨day, s.grandTotalSeconds⟩ := by
  unfold syncSummaryWrite DB.upsertDaySummary DB.deleteDayStatsByDay
    DB.insertDayStats
  simp only [noFaults, Bool.false_eq_true, if_neg, not_false_iff]
  split
  · constructor
    · rfl
    · simp only [DB.addDayStats, DB.delDayStats]
      exact putDaySummary_find db day s.grandTotalSeconds
  · constructor
    · rfl
    · simp only [DB.delDayStats]
      exact putDaySummary_find db day s.grandTotalSeconds

theorem syncSummary_char (r : Remote) (db : DB) (day : Int) (s : SummaryDay)
    (rest : List SummaryDay) (h : r.summaries = .ok (s :: rest)) :
    (syncSummary noFaults r db day).1 = .ok s.grandTotalSeconds ∧
    ∃ ex, ((syncSummary noFaults r db day).2).daySummaries.find?
        (fun x => x.day == day) = some ex ∧
      ex.totalSeconds = s.grandTotalSeconds := by
  unfold syncSummary DB.getDaySummary
  rw [h]
  simp only [noFaults, Bool.false_eq_true, if_neg, not_false_iff]
  cases hf : db.daySummaries.find? (fun x => x.day == day) with
  | none =>
    have hc := syncSummaryWrite_char db day s
    exact ⟨hc.1, ⟨day, s.grandTotalSeconds⟩, hc.2, rfl⟩
  | some ex =>
    by_cases hb : (ex.totalSeconds == s.grandTotalSeconds) = true
    · simp only [hb]
      exact ⟨rfl, ex, hf, by simpa using hb⟩
    · have hbf : (ex.totalSeconds == s.grandTotalSeconds) = false := by
        simpa using hb
      simp only [hbf]
      have hc := syncSummaryWrite_char db day s
      exact ⟨hc.1, ⟨day, s.grandTotalSeconds⟩, hc.2, rfl⟩

-- ### SyncDay-level characterizations of a fault-free run.

theorem SyncDay_durations_count (r : Remote) (o : List String) (db : DB)
    (day : Int) (data : List RemoteDuration) (ds : List SummaryDay)
    (hd : r.durations = .ok data) (hs : r.summaries = .ok ds) :
    data.length ≤
      (((SyncDay noFaults r o db day).2).durations.filter
        (fun d => d.day == day)).length := by
  cases ds with
  | nil =>
    have hstep : (SyncDay noFaults r o db day).2
        = recordSyncIgnore noFaults
            ((syncHeartbeats noFaults r ((syncDurations noFaults r o db day).2) day).2)
            day 0 "success" := by
      unfold SyncDay
      rw [syncSummary_emptyData noFaults db day hs]
    rw [hstep, (recordSyncIgnore_frame _ _ _ _ _).1, (syncHeartbeats_frame _ _ _ _).1]
    exact syncDurations_count r o db day data hd
  | cons s rest =>
    have hc := syncSummary_char r db day s rest hs
    rcases hp : syncSummary noFaults r db day with ⟨res, dbS⟩
    rw [hp] at hc
    have hres : res = .ok s.grandTotalSeconds := hc.1
    subst hres
    have hstep : (SyncDay noFaults r o db day).2
        = recordSyncIgnore noFaults
            ((syncHeartbeats noFaults r ((syncDurations noFaults r o dbS day).2) day).2)
            day s.grandTotalSeconds "success" := by
      unfold SyncDay
      rw [hp]
    rw [hstep, (recordSyncIgnore_frame _ _ _ _ _).1, (syncHeartbeats_frame _ _ _ _).1]
    exact syncDurations_count r o dbS day data hd

theorem SyncDay_heartbeats_count (r : Remote) (o : List String) (db : DB)
    (day : Int) (data : List RemoteHeartbeat) (ds : List SummaryDay)
    (hd : r.heartbeats = .ok data) (hs : r.summaries = .ok ds) :
    data.length ≤
      (((SyncDay noFaults r o db day).2).heartbeats.filter
        (fun x => x.day == day)).length := by
  cases ds with
  | nil =>
    have hstep : (SyncDay noFaults r o db day).2
        = recordSyncIgnore noFaults
            ((syncHeartbeats noFaults r ((syncDurations noFaults r o db day).2) day).2)
            day 0 "success" := by
      unfold SyncDay
      rw [syncSummary_emptyData noFaults db day hs]
    rw [hstep, (recordSyncIgnore_frame _ _ _ _ _).2.2.1]
    exact syncHeartbeats_count r _ day data hd
  | cons s rest =>
    have hc := syncSummary_char r db day s rest hs
    rcases hp : syncSummary noFaults r db day with ⟨res, dbS⟩
    rw [hp] at hc
    have hres : res = .ok s.grandTotalSeconds := hc.1
    subst hres
    have hstep : (SyncDay noFaults r o db day).2
        = recordSyncIgnore noFaults
            ((syncHeartbeats noFaults r ((syncDurations noFaults r o dbS day).2) day).2)
            day s.grandTotalSeconds "success" := by
      unfold SyncDay
      rw [hp]
    rw [hstep, (recordSyncIgnore_frame _ _ _ _ _).2.2.1]
    exact syncHeartbeats_count r _ day data hd

theorem SyncDay_summary_find (r : Remote) (o : List String) (db : DB)
    (day : Int) (s : SummaryDay) (rest : List SummaryDay)
    (hs : r.summaries = .ok (s :: rest)) :
    ∃ ex, ((SyncDay noFaults r o db day).2).daySummaries.find?
        (fun x => x.day == day) = some ex ∧
      ex.totalSeconds = s.grandTotalSeconds := by
  have hc := syncSummary_char r db day s rest hs
  rcases hp : syncSummary noFaults r db day with ⟨res, dbS⟩
  rw [hp] at hc
  have hres : res = .ok s.grandTotalSeconds := hc.1
  subst hres
  have hstep : (SyncDay noFaults r o db day).2
      = recordSyncIgnore noFaults
          ((syncHeartbeats noFaults r ((syncDurations noFaults r o dbS day).2) day).2)
          day s.grandTotalSeconds "success" := by
    unfold SyncDay
    rw [hp]
  obtain ⟨ex, hex, het⟩ := hc.2
  refine ⟨ex, ?_, het⟩
  rw [hstep, (recordSyncIgnore_frame _ _ _ _ _).2.2.2.1,
    (syncHeartbeats_frame _ _ _ _).2.2.1, (syncDurations_frame _ _ _ _ _).1]
  exact hex

/-- A durations step on a store whose per-day count already covers every
possible remote count for the day leaves the store untouched. -/
theorem syncDurations_noop (r : Remote) (o : List String) (db : DB) (day : Int)
    (hd : ∀ data, r.durations = .ok data →
      data.length ≤ (db.durations.filter (fun d => d.day == day)).length) :
    syncDurations noFaults r o db day = ((syncDurations noFaults r o db day).1, db) := by
  cases hr : r.durations with
  | error e => rw [syncDurations_err _ _ _ _ _ hr]
  | ok data => rw [syncDurations_skip _ _ _ _ hr (hd data hr)]

theorem syncHeartbeats_noop (r : Remote) (db : DB) (day : Int)
    (hd : ∀ data, r.heartbeats = .ok data →
      data.length ≤ (db.heartbeats.filter (fun x => x.day == day)).length) :
    syncHeartbeats noFaults r db day = ((syncHeartbeats noFaults r db day).1, db) := by
  cases hr : r.heartbeats with
  | error e => rw [syncHeartbeats_err _ _ _ _ hr]
  | ok data => rw [syncHeartbeats_skip _ _ _ hr (hd data hr)]

-- ### Sorting and grouping lemmas for the aggregation query.

theorem mem_insertDescBySnd (p x : String × Int) (l : List (String × Int)) :
    x ∈ insertDescBySnd p l ↔ x = p ∨ x ∈ l := by
  induction l with
  | nil => simp [insertDescBySnd]
  | cons q rest ih =>
    unfold insertDescBySnd
    split
    · simp
    · simp only [List.mem_cons, ih]
      tauto

theorem insertDescBySnd_perm (p : String × Int) (l : List (String × Int)) :
    (insertDescBySnd p l).Perm (p :: l) := by
  induction l with
  | nil => exact List.Perm.refl _
  | cons q rest ih =>
    unfold insertDescBySnd
    split
    · exact List.Perm.refl _
    · exact (List.Perm.cons q ih).trans (List.Perm.swap p q rest)

theorem sortDescBySnd_perm (l : List (String × Int)) :
    (sortDescBySnd l).Perm l := by
  induction l with
  | nil => exact List.Perm.refl _
  | cons p rest ih =>
    exact (insertDescBySnd_perm p (sortDescBySnd rest)).trans (List.Perm.cons p ih)

theorem insertDescBySnd_sorted (p : String × Int) (l : List (String × Int))
    (h : List.Pairwise (fun a b : String × Int => b.2 ≤ a.2) l) :
    List.Pairwise (fun a b : String × Int => b.2 ≤ a.2) (insertDescBySnd p l) := by
  induction l with
  | nil => simp [insertDescBySnd]
  | cons q rest ih =>
    rw [List.pairwise_cons] at h
    unfold insertDescBySnd
    split
    · rename_i hq
      rw [List.pairwise_cons]
      refine ⟨?_, List.pairwise_cons.mpr h⟩
      intro x hx
      rcases List.mem_cons.mp hx with hxq | hxr
      · exact hxq ▸ hq
      · exact le_trans (h.1 x hxr) hq
    · rename_i hq
      rw [List.pairwise_cons]
      refine ⟨?_, ih h.2⟩
      intro x hx
      rcases (mem_insertDescBySnd p x rest).mp hx with hxp | hxr
      · exact hxp ▸ le_of_lt (lt_of_not_le hq)
      · exact h.1 x hxr

theorem sortDescBySnd_sorted (l : List (String × Int)) :
    List.Pairwise (fun a b : String × Int => b.2 ≤ a.2) (sortDescBySnd l) := by
  induction l with
  | nil => exact List.Pairwise.nil
  | cons p rest ih => exact insertDescBySnd_sorted p (sortDescBySnd rest) ih

theorem mem_dedupStrings (x : String) (l : List String) :
    x ∈ dedupStrings l ↔ x ∈ l := by
  induction l with
  | nil => simp [dedupStrings]
  | cons a rest ih =>
    unfold dedupStrings
    simp only [List.mem_cons, List.mem_filter, ih]
    constructor
    · rintro (rfl | ⟨hx, _⟩)
      · exact Or.inl rfl
      · exact Or.inr hx
    · rintro (rfl | hx)
      · exact Or.inl rfl
      · by_cases hxa : x = a
        · exact Or.inl hxa
        · exact Or.inr ⟨hx, by simp [hxa]⟩

theorem isDaySynced_putSuccess (db : DB) (day t : Int) :
    (db.putSyncLog day t "success").isDaySynced day = true := by
  have h := putSyncLog_find db day t "success"
  unfold DB.syncLogFor at h
  have hm := List.mem_of_find?_eq_some h
  unfold DB.isDaySynced
  rw [List.any_eq_true]
  exact ⟨_, hm, by simp⟩

-- ### Mid-insert fault characterizations (delete committed, insert rolled back)

theorem durations_insertFail (f : StoreFaults) (r : Remote) (o : List String)
    (db : DB) (day : Int) (data : List RemoteDuration) (i : Nat)
    (hd : r.durations = .ok data) (hc : f.countDurations = false)
    (hdel : f.deleteDurations = false) (hins : f.insertDurationsFailAt = some i)
    (hi : i < data.length)
    (hlen : (db.durations.filter (fun d => d.day == day)).length < data.length) :
    (syncDurations f r o db day).1 = .error () ∧
    ((syncDurations f r o db day).2).durations
      = db.durations.filter (fun d => !(d.day == day)) := by
  unfold syncDurations DB.countDurationsByDay DB.deleteDurationsByDay
    DB.insertDurations
  rw [hd]
  repeat' (first | split | split_ifs at *)
  all_goals simp_all [DB.delDurations, DB.addDurations]
  all_goals (first | omega | (rename_i h; rw [← h]))

theorem heartbeats_insertFail (f : StoreFaults) (r : Remote) (db : DB)
    (day : Int) (data : List RemoteHeartbeat) (i : Nat)
    (hd : r.heartbeats = .ok data) (hc : f.countHeartbeats = false)
    (hdel : f.deleteHeartbeats = false) (hins : f.insertHeartbeatsFailAt = some i)
    (hi : i < data.length)
    (hlen : (db.heartbeats.filter (fun x => x.day == day)).length < data.length) :
    (syncHeartbeats f r db day).1 = .error () ∧
    ((syncHeartbeats f r db day).2).heartbeats
      = db.heartbeats.filter (fun x => !(x.day == day)) := by
  unfold syncHeartbeats DB.countHeartbeatsByDay DB.deleteHeartbeatsByDay
    DB.insertHeartbeats
  rw [hd]
  repeat' (first | split | split_ifs at *)
  all_goals simp_all [DB.delHeartbeats, DB.addHeartbeats]
  all_goals (first | omega | (rename_i h; rw [← h]))

theorem putDaySummary_dayStats (db : DB) (day t : Int) :
    (db.putDaySummary day t).dayStats = db.dayStats := by
  unfold DB.putDaySummary
  split <;> rfl

theorem dayStats_insertFail (f : StoreFaults) (db : DB) (day : Int)
    (s : SummaryDay) (i : Nat)
    (hup : f.upsertDaySummary = false) (hdel : f.deleteDayStats = false)
    (hins : f.insertDayStatsFailAt = some i) (hi : i < (buildStats day s).length) :
    (syncSummaryWrite f db day s).1 = .error () ∧
    ((syncSummaryWrite f db day s).2).dayStats
      = db.dayStats.filter (fun x => !(x.day == day)) := by
  have e1 : DB.upsertDaySummary f db day s.grandTotalSeconds
      = .ok (db.putDaySummary day s.grandTotalSeconds) := by
    simp [DB.upsertDaySummary, hup]
  have e2 : DB.deleteDayStatsByDay f (db.putDaySummary day s.grandTotalSeconds) day
      = .ok ((db.putDaySummary day s.grandTotalSeconds).delDayStats day) := by
    simp [DB.deleteDayStatsByDay, hdel]
  have e3 : DB.insertDayStats f
      ((db.putDaySummary day s.grandTotalSeconds).delDayStats day)
      (buildStats day s) = .error () := by
    simp [DB.insertDayStats, hins, hi]
  have hpos : 0 < (buildStats day s).length := Nat.lt_of_le_of_lt (Nat.zero_le i) hi
  unfold syncSummaryWrite
  simp only [e1, e2, e3]
  rw [if_pos hpos]
  exact ⟨rfl, by simp [DB.delDayStats, putDaySummary_dayStats]⟩

theorem projectDurations_insertFail (f : StoreFaults) (r : Remote)
    (o : List String) (db : DB) (day : Int) (data : List RemoteDuration) (i : Nat)
    (hd : r.durations = .ok data) (hc : f.countDurations = false)
    (hdel : f.deleteDurations = false) (hins : f.insertDurationsFailAt = none)
    (hpdel : f.deleteProjectDurations = false)
    (hpins : f.insertProjectDurationsFailAt = some i)
    (hi : i < (fetchProjectDurations r day o).length)
    (hlen : (db.durations.filter (fun d => d.day == day)).length < data.length) :
    (syncDurations f r o db day).1 = .error () ∧
    ((syncDurations f r o db day).2).projectDurations
      = db.projectDurations.filter (fun x => !(x.day == day)) := by
  have e1 : DB.countDurationsByDay f db day
      = .ok ((db.durations.filter (fun d => d.day == day)).length) := by
    simp [DB.countDurationsByDay, hc]
  have e2 : DB.deleteDurationsByDay f db day = .ok (db.delDurations day) := by
    simp [DB.deleteDurationsByDay, hdel]
  have e3 : DB.insertDurations f (db.delDurations day)
      (data.map (fun d => Duration.mk day d.project d.time d.duration d.dependencies))
      = .ok ((db.delDurations day).addDurations
          (data.map (fun d =>
            Duration.mk day d.project d.time d.duration d.dependencies))) := by
    simp [DB.insertDurations, hins]
  have e4 : DB.deleteProjectDurationsByDay f
      ((db.delDurations day).addDurations
        (data.map (fun d =>
          Duration.mk day d.project d.time d.duration d.dependencies))) day
      = .ok (((db.delDurations day).addDurations
          (data.map (fun d =>
            Duration.mk day d.project d.time d.duration d.dependencies))).delProjectDurations
          day) := by
    simp [DB.deleteProjectDurationsByDay, hpdel]
  have e5 : DB.insertProjectDurations f
      (((db.delDurations day).addDurations
        (data.map (fun d =>
          Duration.mk day d.project d.time d.duration d.dependencies))).delProjectDurations
        day)
      (fetchProjectDurations r day o) = .error () := by
    simp [DB.insertProjectDurations, hpins, hi]
  have hne : (data.length == 0) = false := by
    rw [beq_eq_false_iff_ne]
    omega
  have hge : ¬((db.durations.filter (fun d => d.day == day)).length ≥ data.length) := by
    omega
  have hpos : 0 < (fetchProjectDurations r day o).length :=
    Nat.lt_of_le_of_lt (Nat.zero_le i) hi
  unfold syncDurations
  rw [hd]
  simp only [hne, Bool.false_eq_true, if_false, e1]
  rw [if_neg hge]
  simp only [e2, e3]
  rw [if_pos hpos]
  simp only [e4, e5]
  refine ⟨by trivial, by simp [DB.delProjectDurations, DB.addDurations, DB.delDurations]⟩

-- ### Claim theorems

/-- C1 counterexample: with one stored Duration row for day 0 and two
remote items, a row-level failure at the first row of the insert
transaction leaves the day's stored set EMPTY, not unchanged — the
preceding DELETE ran outside the insert's transaction and had already
committed. -/
theorem claim_C1_counterexample :
    dbOneDur.durations ≠ [] ∧
    (syncDurations fInsFail rTwoDur [] dbOneDur 0).1 = .error () ∧
    ((syncDurations fInsFail rTwoDur [] dbOneDur 0).2).durations = [] := by
  decide

/-- C1 amended: the batched insert itself is all-or-nothing — a row-level
failure mid-insert rolls back the entire insert, so no partial new row set
is ever visible — but the delete of the day's previous rows is a separate
statement outside that transaction and has already committed, so after a
mid-insert failure the day's stored set is empty (the day's prior rows are
gone), not unchanged.  The same holds for HeartBeats, DayStats, and
ProjectDurations. -/
theorem claim_C1_amended :
    (∀ (f : StoreFaults) (r : Remote) (o : List String) (db : DB) (day : Int)
      (data : List RemoteDuration) (i : Nat),
      r.durations = .ok data → f.countDurations = false →
      f.deleteDurations = false → f.insertDurationsFailAt = some i →
      i < data.length →
      (db.durations.filter (fun d => d.day == day)).length < data.length →
      (syncDurations f r o db day).1 = .error () ∧
      ((syncDurations f r o db day).2).durations
        = db.durations.filter (fun d => !(d.day == day))) ∧
    (∀ (f : StoreFaults) (r : Remote) (db : DB) (day : Int)
      (data : List RemoteHeartbeat) (i : Nat),
      r.heartbeats = .ok data → f.countHeartbeats = false →
      f.deleteHeartbeats = false → f.insertHeartbeatsFailAt = some i →
      i < data.length →
      (db.heartbeats.filter (fun x => x.day == day)).length < data.length →
      (syncHeartbeats f r db day).1 = .error () ∧
      ((syncHeartbeats f r db day).2).heartbeats
        = db.heartbeats.filter (fun x => !(x.day == day))) ∧
    (∀ (f : StoreFaults) (db : DB) (day : Int) (s : SummaryDay) (i : Nat),
      f.upsertDaySummary = false → f.deleteDayStats = false →
      f.insertDayStatsFailAt = some i → i < (buildStats day s).length →
      (syncSummaryWrite f db day s).1 = .error () ∧
      ((syncSummaryWrite f db day s).2).dayStats
        = db.dayStats.filter (fun x => !(x.day == day))) ∧
    (∀ (f : StoreFaults) (r : Remote) (o : List String) (db : DB) (day : Int)
      (data : List RemoteDuration) (i : Nat),
      r.durations = .ok data → f.countDurations = false →
      f.deleteDurations = false → f.insertDurationsFailAt = none →
      f.deleteProjectDurations = false →
      f.insertProjectDurationsFailAt = some i →
      i < (fetchProjectDurations r day o).length →
      (db.durations.filter (fun d => d.day == day)).length < data.length →
      (syncDurations f r o db day).1 = .error () ∧
      ((syncDurations f r o db day).2).projectDurations
        = db.projectDurations.filter (fun x => !(x.day == day))) :=
  ⟨fun f r o db day data i hd hc hdel hins hi hlen =>
      durations_insertFail f r o db day data i hd hc hdel hins hi hlen,
   fun f r db day data i hd hc hdel hins hi hlen =>
      heartbeats_insertFail f r db day data i hd hc hdel hins hi hlen,
   fun f db day s i hup hdel hins hi =>
      dayStats_insertFail f db day s i hup hdel hins hi,
   fun f r o db day data i hd hc hdel hins hpdel hpins hi hlen =>
      projectDurations_insertFail f r o db day data i hd hc hdel hins hpdel
        hpins hi hlen⟩

/-- Witness for C1's amended statement: the concrete mid-insert fault run
fails and leaves exactly the day's rows deleted. -/
theorem claim_C1_witness :
    (syncDurations fInsFail rTwoDur [] dbOneDur 0).1 = .error () ∧
    ((syncDurations fInsFail rTwoDur [] dbOneDur 0).2).durations
      = dbOneDur.durations.filter (fun d => !(d.day == 0)) :=
  claim_C1_amended.1 fInsFail rTwoDur [] dbOneDur 0
    [⟨"p", 1, 2, ""⟩, ⟨"q", 3, 2, ""⟩] 0
    rfl rfl rfl rfl (by decide) (by decide)

/-- C5: Staleness skip — when the stored per-day Duration row count is at
least the remote item count, the durations step performs no delete and no
insert and leaves the store unchanged (and returns no error); the same
holds for HeartBeat rows in the heartbeats step. -/
theorem claim_C5 : ∀ (r : Remote) (o : List String) (db : DB) (day : Int)
    (durData : List RemoteDuration) (hbData : List RemoteHeartbeat),
    (r.durations = .ok durData →
      durData.length ≤ (db.durations.filter (fun d => d.day == day)).length →
      syncDurations noFaults r o db day = (.ok (), db)) ∧
    (r.heartbeats = .ok hbData →
      hbData.length ≤ (db.heartbeats.filter (fun x => x.day == day)).length →
      syncHeartbeats noFaults r db day = (.ok (), db)) := by
  intro r o db day durData hbData
  exact ⟨fun h hc => syncDurations_skip o db day durData h hc,
    fun h hc => syncHeartbeats_skip db day hbData h hc⟩

/-- Witness for C5: a store with one stored duration row and one stored
heartbeat row for day 0 and a remote returning one item of each is left
untouched by both steps. -/
theorem claim_C5_witness :
    syncDurations noFaults rOneEach [] dbOneEach 0 = (.ok (), dbOneEach) ∧
    syncHeartbeats noFaults rOneEach dbOneEach 0 = (.ok (), dbOneEach) :=
  ⟨(claim_C5 rOneEach [] dbOneEach 0 [⟨"p", 1, 2, ""⟩]
      [⟨"e", "file", "coding", 1, "p", "b", "Go", false, "m", 0, 0, 0⟩]).1
      rfl (by decide),
   (claim_C5 rOneEach [] dbOneEach 0 [⟨"p", 1, 2, ""⟩]
      [⟨"e", "file", "coding", 1, "p", "b", "Go", false, "m", 0, 0, 0⟩]).2
      rfl (by decide)⟩

/-- C7: Summary staleness skip — when a stored DaySummary exists for the
day and its total equals the remote grand total, the summary step writes
nothing and returns the unchanged total with no error. -/
theorem claim_C7 : ∀ (r : Remote) (db : DB) (day : Int) (s : SummaryDay)
    (rest : List SummaryDay) (ex : DaySummary),
    r.summaries = .ok (s :: rest) →
    db.daySummaries.find? (fun x => x.day == day) = some ex →
    ex.totalSeconds = s.grandTotalSeconds →
    syncSummary noFaults r db day = (.ok s.grandTotalSeconds, db) := by
  intro r db day s rest ex h hex ht
  exact syncSummary_skip db day s rest ex h hex ht

/-- Witness for C7: a store already holding day 0's total 7200 is left
untouched by a summary step fetching the same total. -/
theorem claim_C7_witness :
    syncSummary noFaults rGood dbSumGo 0 = (.ok 7200, dbSumGo) :=
  claim_C7 rGood dbSumGo 0 sumGo [] ⟨0, 7200⟩ rfl (by decide) rfl

/-- C9: SyncDays and SyncDateRange always return nil — per-day failures
are logged and skipped, and no error is propagated to the caller. -/
theorem claim_C9 : ∀ (f : StoreFaults) (rs : Int → Remote)
    (orders : Int → List String) (db : DB) (start endDay today n : Int),
    (SyncDateRange f rs orders db start endDay).1 = .ok () ∧
    (SyncDays f rs orders db today n).1 = .ok () := by
  intro f rs orders db start endDay today n
  exact ⟨rfl, rfl⟩

/-- C10: an upstream summary fetch that succeeds with an empty data list
leaves DaySummary and DayStat untouched, yet SyncDay returns nil, records
a "success" audit entry with total 0, and IsDaySynced becomes true. -/
theorem claim_C10 : ∀ (r : Remote) (o : List String) (db : DB) (day : Int),
    r.summaries = .ok [] →
    (SyncDay noFaults r o db day).1 = .ok () ∧
    ((SyncDay noFaults r o db day).2).daySummaries = db.daySummaries ∧
    ((SyncDay noFaults r o db day).2).dayStats = db.dayStats ∧
    ((SyncDay noFaults r o db day).2).syncLogFor day = some ⟨day, 0, "success"⟩ ∧
    ((SyncDay noFaults r o db day).2).isDaySynced day = true := by
  intro r o db day hs
  have hres : (SyncDay noFaults r o db day).1 = .ok () := by
    unfold SyncDay
    rw [syncSummary_emptyData noFaults db day hs]
  have hstep : (SyncDay noFaults r o db day).2
      = recordSyncIgnore noFaults
          ((syncHeartbeats noFaults r ((syncDurations noFaults r o db day).2) day).2)
          day 0 "success" := by
    unfold SyncDay
    rw [syncSummary_emptyData noFaults db day hs]
  refine ⟨hres, ?_, ?_, ?_, ?_⟩
  · rw [hstep, (recordSyncIgnore_frame _ _ _ _ _).2.2.2.1,
      (syncHeartbeats_frame _ _ _ _).2.2.1, (syncDurations_frame _ _ _ _ _).1]
  · rw [hstep, (recordSyncIgnore_frame _ _ _ _ _).2.2.2.2,
      (syncHeartbeats_frame _ _ _ _).2.2.2.1, (syncDurations_frame _ _ _ _ _).2.1]
  · rw [hstep, recordSyncIgnore_noRecFault _ _ _ _ _ rfl]
    exact putSyncLog_find _ day 0 "success"
  · rw [hstep, recordSyncIgnore_noRecFault _ _ _ _ _ rfl]
    exact isDaySynced_putSuccess _ day 0

/-- Witness for C10: concrete empty-summary run on day 5. -/
theorem claim_C10_witness :
    (SyncDay noFaults rEmptySummary [] DB.empty 5).1 = .ok () ∧
    ((SyncDay noFaults rEmptySummary [] DB.empty 5).2).isDaySynced 5 = true :=
  ⟨(claim_C10 rEmptySummary [] DB.empty 5 rfl).1,
   (claim_C10 rEmptySummary [] DB.empty 5 rfl).2.2.2.2⟩

/-- C6 counterexample: the per-project fetch order is the iteration order
of a Go map, which is unspecified — two valid iteration orders of the same
remote response differ, and running the durations step with them produces
different stores, refuting the claimed deterministic (lexicographic) fetch
order. -/
theorem claim_C6_counterexample :
    validProjectOrder dataTwoProj ["a", "b"] ∧
    validProjectOrder dataTwoProj ["b", "a"] ∧
    (["a", "b"] : List String) ≠ ["b", "a"] ∧
    (syncDurations noFaults rTwoProj ["a", "b"] DB.empty 0).2
      ≠ (syncDurations noFaults rTwoProj ["b", "a"] DB.empty 0).2 := by
  refine ⟨?_, ?_, by decide, by decide⟩
  · unfold validProjectOrder
    decide
  · unfold validProjectOrder
    decide

/-- C6 amended: the collection of per-project fetches is deterministic as a
multiset — any two valid iteration orders of the distinct non-empty project
names are permutations of each other, and each order contains exactly the
distinct non-empty project names — but the sequential order itself is
unspecified. -/
theorem claim_C6_amended : ∀ (data : List RemoteDuration) (o1 o2 : List String),
    validProjectOrder data o1 → validProjectOrder data o2 →
    o1.Perm o2 ∧ ∀ p, p ∈ o1 ↔ p ∈ distinctProjects data := by
  intro data o1 o2 h1 h2
  exact ⟨h1.trans h2.symm, fun p => h1.mem_iff⟩

/-- Witness for C6: the two concrete valid orders are permutations of each
other and both list exactly the projects "a" and "b". -/
theorem claim_C6_witness :
    (["a", "b"] : List String).Perm ["b", "a"] ∧
    ("a" ∈ (["a", "b"] : List String) ↔ "a" ∈ distinctProjects dataTwoProj) :=
  ⟨(claim_C6_amended dataTwoProj ["a", "b"] ["b", "a"]
      (by unfold validProjectOrder; decide) (by unfold validProjectOrder; decide)).1,
   (claim_C6_amended dataTwoProj ["a", "b"] ["b", "a"]
      (by unfold validProjectOrder; decide) (by unfold validProjectOrder; decide)).2 "a"⟩

/-- C8: Aggregation correctness — for every range and stat type the query
returns entries sorted descending by summed total, the entry names are
exactly the distinct names of the rows in range (one entry per name), each
entry's value is the sum of that name's totals; and on language rows
A:100, B:300 it returns [B:300, A:100] whose totals sum to 400. -/
theorem claim_C8 :
    (∀ (db : DB) (a b : Int) (ty : String),
      List.Pairwise (fun p q : String × Int => q.2 ≤ p.2)
        (db.getAggregatedStats a b ty) ∧
      ((db.getAggregatedStats a b ty).map Prod.fst).Perm
        (dedupStrings ((aggRows db a b ty).map (fun s => s.name))) ∧
      (∀ p : String × Int, p ∈ db.getAggregatedStats a b ty →
        p.2 = sumFor (aggRows db a b ty) p.1)) ∧
    aggExample.getAggregatedStats 1 3 "language" = [("B", 300), ("A", 100)] ∧
    (aggExample.getAggregatedStats 1 3 "language").foldl
      (fun acc p => acc + p.2) 0 = 400 := by
  refine ⟨?_, by decide, by decide⟩
  intro db a b ty
  simp only [DB.getAggregatedStats]
  refine ⟨sortDescBySnd_sorted _, ?_, ?_⟩
  · have hperm := (sortDescBySnd_perm
      ((dedupStrings ((aggRows db a b ty).map (fun s => s.name))).map
        (fun n => (n, sumFor (aggRows db a b ty) n)))).map Prod.fst
    rw [List.map_map] at hperm
    have hid : (Prod.fst ∘ fun n => (n, sumFor (aggRows db a b ty) n)) = id := rfl
    rw [hid, List.map_id] at hperm
    exact hperm
  · intro p hp
    have hp2 : p ∈ (dedupStrings ((aggRows db a b ty).map (fun s => s.name))).map
        (fun n => (n, sumFor (aggRows db a b ty) n)) :=
      (sortDescBySnd_perm _).mem_iff.mp hp
    simp only [List.mem_map] at hp2
    obtain ⟨n, _, rfl⟩ := hp2
    rfl

/-- Witness for C8: the entry ("B", 300) of the concrete aggregation indeed
carries the sum of B's totals in range. -/
theorem claim_C8_witness :
    (("B", 300) : String × Int).2 = sumFor (aggRows aggExample 1 3 "language") "B" :=
  (claim_C8.1 aggExample 1 3 "language").2.2 ("B", 300) (by decide)

/-- C2: if the summary step fails, SyncDay records a "failed" audit entry
with total 0 and returns the error; if the summary step succeeds with total
T, SyncDay returns no error — whatever the durations and heartbeats steps
do — and records a "success" audit entry with total T. -/
theorem claim_C2 : ∀ (f : StoreFaults) (r : Remote) (o : List String)
    (db : DB) (day : Int),
    f.recordSync = false →
    ((syncSummary f r db day).1 = .error () →
      (SyncDay f r o db day).1 = .error () ∧
      ((SyncDay f r o db day).2).syncLogFor day = some ⟨day, 0, "failed"⟩) ∧
    (∀ T, (syncSummary f r db day).1 = .ok T →
      (SyncDay f r o db day).1 = .ok () ∧
      ((SyncDay f r o db day).2).syncLogFor day = some ⟨day, T, "success"⟩) := by
  intro f r o db day hrec
  constructor
  · intro herr
    rcases hp : syncSummary f r db day with ⟨res, dbS⟩
    rw [hp] at herr
    have hres : res = .error () := herr
    subst hres
    have h1 : SyncDay f r o db day
        = (.error (), recordSyncIgnore f dbS day 0 "failed") := by
      unfold SyncDay
      rw [hp]
    rw [h1, recordSyncIgnore_noRecFault f dbS day 0 "failed" hrec]
    exact ⟨rfl, putSyncLog_find dbS day 0 "failed"⟩
  · intro T hok
    rcases hp : syncSummary f r db day with ⟨res, dbS⟩
    rw [hp] at hok
    have hres : res = .ok T := hok
    subst hres
    have h1 : SyncDay f r o db day
        = (.ok (), recordSyncIgnore f
            ((syncHeartbeats f r ((syncDurations f r o dbS day).2) day).2)
            day T "success") := by
      unfold SyncDay
      rw [hp]
    rw [h1, recordSyncIgnore_noRecFault f _ day T "success" hrec]
    exact ⟨rfl, putSyncLog_find _ day T "success"⟩

/-- Witness for C2: the spec's scenarios — summary total 5000 with a failing
heartbeat fetch gives a nil return and a "success"/5000 audit entry; a
failing summary fetch gives an error return and a "failed"/0 entry. -/
theorem claim_C2_witness :
    ((SyncDay noFaults rPartial [] DB.empty 0).1 = .ok () ∧
      ((SyncDay noFaults rPartial [] DB.empty 0).2).syncLogFor 0
        = some ⟨0, 5000, "success"⟩) ∧
    ((SyncDay noFaults rAllFail [] DB.empty 0).1 = .error () ∧
      ((SyncDay noFaults rAllFail [] DB.empty 0).2).syncLogFor 0
        = some ⟨0, 0, "failed"⟩) :=
  ⟨(claim_C2 noFaults rPartial [] DB.empty 0 rfl).2 5000 (by decide),
   (claim_C2 noFaults rAllFail [] DB.empty 0 rfl).1 (by decide)⟩

/-- C3 counterexample: a store failure (the duration count query) occurs
inside SyncDay's durations step — the step itself fails on exactly the
state SyncDay hands it — yet SyncDay returns nil, so store failures are
not always propagated. -/
theorem claim_C3_counterexample :
    (syncDurations fCountFail rGood []
        ((syncSummary fCountFail rGood DB.empty 0).2) 0).1 = .error () ∧
    (SyncDay fCountFail rGood [] DB.empty 0).1 = .ok () := by decide

/-- C3 amended: a store failure raised in the summary step is fatal and
propagated; any failure confined to the durations or heartbeats steps —
including store failures — is swallowed and SyncDay returns nil. -/
theorem claim_C3_amended : ∀ (f : StoreFaults) (r : Remote) (o : List String)
    (db : DB) (day : Int),
    ((syncSummary f r db day).1 = .error () → (SyncDay f r o db day).1 = .error ()) ∧
    (∀ T, (syncSummary f r db day).1 = .ok T → (SyncDay f r o db day).1 = .ok ()) := by
  intro f r o db day
  constructor
  · intro herr
    rcases hp : syncSummary f r db day with ⟨res, dbS⟩
    rw [hp] at herr
    have hres : res = .error () := herr
    subst hres
    unfold SyncDay
    rw [hp]
  · intro T hok
    rcases hp : syncSummary f r db day with ⟨res, dbS⟩
    rw [hp] at hok
    have hres : res = .ok T := hok
    subst hres
    unfold SyncDay
    rw [hp]

/-- Witness for C3's amended statement: a failing summary fetch propagates;
a run whose heartbeat fetch fails (with a successful summary) returns nil. -/
theorem claim_C3_witness :
    (SyncDay noFaults rAllFail [] DB.empty 0).1 = .error () ∧
    (SyncDay noFaults rPartial [] DB.empty 0).1 = .ok () :=
  ⟨(claim_C3_amended noFaults rAllFail [] DB.empty 0).1 (by decide),
   (claim_C3_amended noFaults rPartial [] DB.empty 0).2 5000 (by decide)⟩

/-- C4: Idempotence — running SyncDay twice against unchanged upstream
responses (and no store faults) leaves the Durations, HeartBeats and
DayStats tables after the second run identical to their state after the
first run, for any map iteration orders in the two runs. -/
theorem claim_C4 : ∀ (r : Remote) (db : DB) (day : Int) (o1 o2 : List String),
    ((SyncDay noFaults r o2 ((SyncDay noFaults r o1 db day).2) day).2).durations
      = ((SyncDay noFaults r o1 db day).2).durations ∧
    ((SyncDay noFaults r o2 ((SyncDay noFaults r o1 db day).2) day).2).heartbeats
      = ((SyncDay noFaults r o1 db day).2).heartbeats ∧
    ((SyncDay noFaults r o2 ((SyncDay noFaults r o1 db day).2) day).2).dayStats
      = ((SyncDay noFaults r o1 db day).2).dayStats := by
  intro r db day o1 o2
  cases hs : r.summaries with
  | error e =>
    have hstep : ∀ dbx : DB, (SyncDay noFaults r o2 dbx day).2
        = recordSyncIgnore noFaults dbx day 0 "failed" := by
      intro dbx
      unfold SyncDay
      rw [syncSummary_err noFaults dbx day e hs]
    rw [hstep]
    exact ⟨(recordSyncIgnore_frame _ _ _ _ _).1,
      (recordSyncIgnore_frame _ _ _ _ _).2.2.1,
      (recordSyncIgnore_frame _ _ _ _ _).2.2.2.2⟩
  | ok ds =>
    have hpair : ∃ T2, syncSummary noFaults r ((SyncDay noFaults r o1 db day).2) day
        = (.ok T2, (SyncDay noFaults r o1 db day).2) := by
      cases ds with
      | nil => exact ⟨0, syncSummary_emptyData noFaults _ day hs⟩
      | cons s rest =>
        obtain ⟨ex, hex, het⟩ := SyncDay_summary_find r o1 db day s rest hs
        exact ⟨s.grandTotalSeconds, syncSummary_skip _ day s rest ex hs hex het⟩
    obtain ⟨T2, hpair⟩ := hpair
    have hcountD : ∀ data, r.durations = .ok data → data.length ≤
        ((((SyncDay noFaults r o1 db day).2).durations.filter
          (fun d => d.day == day)).length) :=
      fun data hdata => SyncDay_durations_count r o1 db day data ds hdata hs
    have hcountH : ∀ data, r.heartbeats = .ok data → data.length ≤
        ((((SyncDay noFaults r o1 db day).2).heartbeats.filter
          (fun x => x.day == day)).length) :=
      fun data hdata => SyncDay_heartbeats_count r o1 db day data ds hdata hs
    generalize hdb1 : (SyncDay noFaults r o1 db day).2 = db1 at hpair hcountD hcountH ⊢
    have hD : (syncDurations noFaults r o2 db1 day).2 = db1 :=
      congrArg Prod.snd (syncDurations_noop r o2 db1 day hcountD)
    have hH : (syncHeartbeats noFaults r db1 day).2 = db1 :=
      congrArg Prod.snd (syncHeartbeats_noop r db1 day hcountH)
    have hstep : (SyncDay noFaults r o2 db1 day).2
        = recordSyncIgnore noFaults
            ((syncHeartbeats noFaults r
              ((syncDurations noFaults r o2 db1 day).2) day).2)
            day T2 "success" := by
      unfold SyncDay
      rw [hpair]
    rw [hstep, hD, hH]
    exact ⟨(recordSyncIgnore_frame _ _ _ _ _).1,
      (recordSyncIgnore_frame _ _ _ _ _).2.2.1,
      (recordSyncIgnore_frame _ _ _ _ _).2.2.2.2⟩

end WakaSync
